import Mathlib

/-
Shallow embedding of src/main.py (monarch-bridge): a FastAPI sidecar that keeps
a MonarchMoney session alive and re-exposes login/MFA, transaction listing and
transaction update as REST routes.

Modelling conventions:
* The shared client `mm` is reduced to its one observable piece of mutable
  state, the in-memory session token (`mm.token`); `is_authenticated` checks
  its presence, exactly as in the source.
* Remote calls (`mm.login`, `mm.multi_factor_authenticate`, `mm.get_accounts`,
  `mm.get_transactions`, `mm.update_transaction`) are opaque: each handler
  takes the call's outcome (success payload or raised exception) as an explicit
  parameter and the handler body is a pure function of state, request and
  outcome, mirroring the Python control flow line by line.
* Each handler returns the new state, the HTTP response, the number of
  `save_session` persist attempts it made, and the list of remote calls it
  issued, so that effect counts ("exactly one persist", "zero remote calls")
  are provable.
* Calendar dates are modelled by their day number (an Int): `datetime.now()`
  is `today`, `now - timedelta(days=days)` is `today - days`; the `%Y-%m-%d`
  formatting is an injection from day numbers and is left opaque.
* The `amount` float field is modelled by an Int carrier: the code only tests
  it for null-ness and forwards it verbatim, so nothing depends on float
  arithmetic.
-/

namespace Monarch

/-- Observable state of the global MonarchMoney client: its in-memory session
token (`mm.token` in src/main.py). -/
structure MMState where
  token : Option String
deriving Repr, DecidableEq

/-- Embeds `is_authenticated` (src/main.py line 30): the client has a token. -/
def is_authenticated (s : MMState) : Bool :=
  s.token.isSome

/-- JSON-like values carried by transaction-update fields. Floats (`amount`)
are modelled by an Int carrier since the code only tests null-ness and
forwards the value opaquely. -/
inductive JVal where
  | str (s : String)
  | bool (b : Bool)
  | num (n : Int)
deriving Repr, DecidableEq

/-- Opaque payload returned by the remote list-transactions call. -/
abbrev TxPayload := List JVal

/-- The remote calls the handlers can issue against the external provider,
with the arguments the source passes. -/
inductive RemoteCall where
  | loginCall (email password : String) (mfaSecret : Option String)
  | multiFactorAuthenticate (email password code : String)
  | getAccounts
  | getTransactions (limit : Nat) (startDate endDate : Int)
  | updateTransaction (id : String) (fields : List (String × JVal))
deriving Repr, DecidableEq

/-- JSON response bodies produced by the handlers. -/
inductive RespBody where
  | statusMsg (status message : String)
  | health (status : String) (loggedIn : Bool)
  | payload (p : TxPayload)
  | detail (d : String)
deriving Repr, DecidableEq

/-- An HTTP response: status code plus JSON body. An `HTTPException`
raised by a handler surfaces as `Response.mk code (RespBody.detail d)`. -/
structure Response where
  statusCode : Nat
  body : RespBody
deriving Repr, DecidableEq

/-- Result of running one handler: the client state afterwards, the HTTP
response, how many `save_session` persist attempts were made, and which
remote calls were issued, in order. -/
structure HandlerOut where
  state : MMState
  resp : Response
  persists : Nat
  calls : List RemoteCall
deriving Repr, DecidableEq

/-- Request body of POST /auth/login (src/main.py `LoginRequest`). -/
structure LoginRequest where
  email : String
  password : String
  mfa_secret : Option String
deriving Repr, DecidableEq

/-- Request body of POST /auth/mfa (src/main.py `MFARequest`). -/
structure MFARequest where
  email : String
  password : String
  code : String
deriving Repr, DecidableEq

/-- Request body of PATCH /transactions/\x7bid\x7d (src/main.py
`TransactionUpdate`): six optional fields, each defaulting to null, so an
empty JSON body and a body whose declared fields are all explicitly null
parse to the same value (all fields `none`). -/
structure TransactionUpdate where
  notes : Option String
  category_id : Option String
  needs_review : Option Bool
  merchant_name : Option String
  amount : Option Int
  date : Option String
deriving Repr, DecidableEq

/-- Embeds `update.model_dump()`: the field-name/value pairs in declaration
order, null fields as `none`. -/
def TransactionUpdate.model_dump (u : TransactionUpdate) : List (String × Option JVal) :=
  [("notes", u.notes.map JVal.str),
   ("category_id", u.category_id.map JVal.str),
   ("needs_review", u.needs_review.map JVal.bool),
   ("merchant_name", u.merchant_name.map JVal.str),
   ("amount", u.amount.map JVal.num),
   ("date", u.date.map JVal.str)]

/-- Embeds the dict comprehension in `update_transaction` (src/main.py line
176): keep exactly the pairs whose value `is not None`. -/
def buildKwargs (u : TransactionUpdate) : List (String × JVal) :=
  u.model_dump.filterMap (fun kv => kv.2.map (fun v => (kv.1, v)))

/-- The update object produced by an empty PATCH body (and equally by a body
whose declared fields are all explicitly null). -/
def TransactionUpdate.empty : TransactionUpdate :=
  TransactionUpdate.mk none none none none none none

/-- Outcome of the underlying `mm.load_session(path)` call: on success it
installs the stored token, otherwise it raises. -/
inductive LoadOutcome where
  | ok (tok : Option String)
  | error (msg : String)
deriving Repr, DecidableEq

/-- Whether the underlying load call completed without raising. -/
def LoadOutcome.isOk : LoadOutcome → Bool
  | LoadOutcome.ok _ => true
  | LoadOutcome.error _ => false

/-- Environment seen by `load_session`: whether `SESSION_FILE` exists, and
what the underlying client load call would do if attempted. -/
structure FSEnv where
  pathExists : Bool
  loadOutcome : LoadOutcome
deriving Repr, DecidableEq

/-- Embeds `load_session` (src/main.py lines 44-53): if the path exists, try
the underlying load (installing its token on success, swallowing and logging
any exception); return whether the path existed and the load did not fail.
The embedding is a total function — the source never lets an exception
escape this function. -/
def load_session (s : MMState) (env : FSEnv) : MMState × Bool :=
  if env.pathExists then
    match env.loadOutcome with
    | LoadOutcome.ok tok => (MMState.mk tok, true)
    | LoadOutcome.error _ => (s, false)
  else
    (s, false)

/-- Outcome of the remote `mm.login` call inside `perform_login`: success
installs a token; the three exception shapes are the ones the source
distinguishes. -/
inductive LoginOutcome where
  | success (tok : String)
  | requireMFA
  | loginFailed (msg : String)
  | otherError (msg : String)
deriving Repr, DecidableEq

/-- Embeds `perform_login` (src/main.py lines 71-84): on login success save
the session once and answer success; `RequireMFAException` answers
`mfa_required` with 200 and no persist; `LoginFailedException` becomes a 401;
any other exception becomes a 500. The raised token is installed by the
successful remote call; every exception path leaves the client state
untouched. -/
def perform_login (s : MMState) (email password : String) (mfaSecret : Option String)
    (o : LoginOutcome) : HandlerOut :=
  match o with
  | LoginOutcome.success tok =>
      HandlerOut.mk (MMState.mk (some tok))
        (Response.mk 200 (RespBody.statusMsg "success" "Logged in successfully"))
        1 [RemoteCall.loginCall email password mfaSecret]
  | LoginOutcome.requireMFA =>
      HandlerOut.mk s
        (Response.mk 200 (RespBody.statusMsg "mfa_required" "MFA code required"))
        0 [RemoteCall.loginCall email password mfaSecret]
  | LoginOutcome.loginFailed msg =>
      HandlerOut.mk s (Response.mk 401 (RespBody.detail msg))
        0 [RemoteCall.loginCall email password mfaSecret]
  | LoginOutcome.otherError msg =>
      HandlerOut.mk s (Response.mk 500 (RespBody.detail msg))
        0 [RemoteCall.loginCall email password mfaSecret]

/-- Embeds the POST /auth/login route (src/main.py lines 138-140): it simply
delegates to `perform_login`. -/
def login (s : MMState) (req : LoginRequest) (o : LoginOutcome) : HandlerOut :=
  perform_login s req.email req.password req.mfa_secret o

/-- Outcome of the remote `mm.multi_factor_authenticate` call: it may
complete normally (leaving the client with some token state, possibly still
absent) or raise. -/
inductive MFAOutcome where
  | completes (tokenAfter : Option String)
  | raises (msg : String)
deriving Repr, DecidableEq

/-- Stringification of a Starlette `HTTPException`: `str(e)` is
"\x7bstatus_code\x7d: \x7bdetail\x7d". -/
def httpExceptionStr (statusCode : Nat) (d : String) : String :=
  toString statusCode ++ ": " ++ d

/-- Embeds the POST /auth/mfa route (src/main.py lines 142-153). Note the
`raise HTTPException(status_code=401, detail="MFA failed")` sits inside the
`try` block, and `HTTPException` is a subclass of `Exception`, so the
handler's own `except Exception` clause catches it and re-raises it as a 500
whose detail is the stringified 401 exception. -/
def mfa (s : MMState) (req : MFARequest) (o : MFAOutcome) : HandlerOut :=
  match o with
  | MFAOutcome.raises msg =>
      HandlerOut.mk s (Response.mk 500 (RespBody.detail msg)) 0
        [RemoteCall.multiFactorAuthenticate req.email req.password req.code]
  | MFAOutcome.completes tokenAfter =>
      let s2 := MMState.mk tokenAfter
      if is_authenticated s2 then
        HandlerOut.mk s2
          (Response.mk 200 (RespBody.statusMsg "success" "MFA successful")) 1
          [RemoteCall.multiFactorAuthenticate req.email req.password req.code]
      else
        HandlerOut.mk s2
          (Response.mk 500 (RespBody.detail (httpExceptionStr 401 "MFA failed"))) 0
          [RemoteCall.multiFactorAuthenticate req.email req.password req.code]

/-- Outcome of the remote `mm.get_transactions` call. -/
inductive GetTxOutcome where
  | ok (p : TxPayload)
  | error (msg : String)
deriving Repr, DecidableEq

/-- Embeds the GET /transactions route (src/main.py lines 155-168): 401 with
no remote call when unauthenticated; otherwise one list call with limit 1000
over the window [today - days, today], returning the payload unchanged on
success and a 500 on failure. -/
def get_transactions (s : MMState) (days today : Int) (o : GetTxOutcome) : HandlerOut :=
  if is_authenticated s = false then
    HandlerOut.mk s (Response.mk 401 (RespBody.detail "Not authenticated")) 0 []
  else
    match o with
    | GetTxOutcome.ok p =>
        HandlerOut.mk s (Response.mk 200 (RespBody.payload p)) 0
          [RemoteCall.getTransactions 1000 (today - days) today]
    | GetTxOutcome.error msg =>
        HandlerOut.mk s (Response.mk 500 (RespBody.detail msg)) 0
          [RemoteCall.getTransactions 1000 (today - days) today]

/-- Outcome of the remote `mm.update_transaction` call. -/
inductive UpdateOutcome where
  | ok
  | error (msg : String)
deriving Repr, DecidableEq

/-- Embeds the PATCH /transactions/\x7bid\x7d route (src/main.py lines
170-184): 401 with no remote call when unauthenticated; build `kwargs` from
the non-null fields; if empty, answer `no_change` without any remote call;
otherwise issue the one update call and answer success, or 500 on failure. -/
def update_transaction (s : MMState) (transaction_id : String)
    (update : TransactionUpdate) (o : UpdateOutcome) : HandlerOut :=
  if is_authenticated s = false then
    HandlerOut.mk s (Response.mk 401 (RespBody.detail "Not authenticated")) 0 []
  else
    let kwargs := buildKwargs update
    if kwargs.isEmpty then
      HandlerOut.mk s
        (Response.mk 200 (RespBody.statusMsg "no_change" "No fields to update")) 0 []
    else
      match o with
      | UpdateOutcome.ok =>
          HandlerOut.mk s
            (Response.mk 200 (RespBody.statusMsg "success"
              ("Transaction " ++ transaction_id ++ " updated"))) 0
            [RemoteCall.updateTransaction transaction_id kwargs]
      | UpdateOutcome.error msg =>
          HandlerOut.mk s (Response.mk 500 (RespBody.detail msg)) 0
            [RemoteCall.updateTransaction transaction_id kwargs]

/-- Outcome of the keep-alive ping (`mm.get_accounts`). -/
inductive PingOutcome where
  | ok
  | error (msg : String)
deriving Repr, DecidableEq

/-- Observable events of one keep-alive iteration: the remote ping call and
the interval sleep. -/
inductive KAEvent where
  | ping
  | sleep
deriving Repr, DecidableEq

/-- Embeds the body of one iteration of `keep_alive_loop` (src/main.py lines
57-69) as its event trace: inside the try block, ping if authenticated (any
exception from the ping is caught and logged), otherwise just log; then,
after the try block, sleep for KEEP_ALIVE_INTERVAL. -/
def keep_alive_tick (s : MMState) (o : PingOutcome) : List KAEvent :=
  if is_authenticated s then
    match o with
    | PingOutcome.ok => [KAEvent.ping, KAEvent.sleep]
    | PingOutcome.error _ => [KAEvent.ping, KAEvent.sleep]
  else
    [KAEvent.sleep]

/-- One keep-alive iteration with its effect on the client state: the loop
body contains no assignment to the session, so the state passes through
unchanged whatever the ping outcome. -/
def keep_alive_tick_state (s : MMState) (o : PingOutcome) : MMState × List KAEvent :=
  (s, keep_alive_tick s o)

/-- Embeds a finite prefix of the infinite `while True` loop of
`keep_alive_loop`: run one tick per supplied ping outcome, threading the
state and concatenating the event traces. The loop itself never breaks or
returns, so every supplied outcome is consumed by a full tick. -/
def keep_alive_run (s : MMState) : List PingOutcome → MMState × List KAEvent
  | [] => (s, [])
  | o :: os =>
      let step := keep_alive_tick_state s o
      let rest := keep_alive_run step.1 os
      (rest.1, step.2 ++ rest.2)

/-- Number of interval sleeps in a keep-alive event trace; each completed
tick contributes exactly one. -/
def countSleeps : List KAEvent → Nat
  | [] => 0
  | KAEvent.sleep :: rest => countSleeps rest + 1
  | KAEvent.ping :: rest => countSleeps rest

/-- Whether a remote ping occurs before the first sleep of a trace. -/
def pingBeforeFirstSleep : List KAEvent → Bool
  | [] => false
  | KAEvent.sleep :: _ => false
  | KAEvent.ping :: _ => true

/-- An update body whose non-null fields are all falsy in Python terms:
empty notes string, needs_review false, amount zero. -/
def falsyUpdate : TransactionUpdate :=
  TransactionUpdate.mk (some "") none (some false) none (some 0) none

/-- Claim C1 (the code diverges from it): when `multi_factor_authenticate`
completes without raising but the token is still absent, the handler responds
500, not the claimed 401 — the intended `HTTPException(401, "MFA failed")` is
raised inside the try block and the handler's own `except Exception` clause
catches it and re-raises it as a 500 whose detail is the stringified 401.
No session persist happens on this path. -/
theorem mfa_invalid_state_yields_500 (email password code : String) :
    (mfa (MMState.mk none) (MFARequest.mk email password code)
      (MFAOutcome.completes none)).resp.statusCode = 500
    ∧ (mfa (MMState.mk none) (MFARequest.mk email password code)
        (MFAOutcome.completes none)).resp.body
        = RespBody.detail (httpExceptionStr 401 "MFA failed")
    ∧ (mfa (MMState.mk none) (MFARequest.mk email password code)
        (MFAOutcome.completes none)).persists = 0 :=
  ⟨rfl, rfl, rfl⟩

/-- Claim C2 counterexample: in a keep-alive run that starts authenticated,
the very first event of the first tick is the remote ping, so a ping occurs
before the first interval sleep — refuting the claim that the sleep precedes
the ping within each tick. -/
theorem keep_alive_pings_before_first_sleep :
    pingBeforeFirstSleep
      (keep_alive_run (MMState.mk (some "tok")) [PingOutcome.ok]).2 = true :=
  rfl

/-- Claim C2 amended: each keep-alive iteration first checks authentication
and, if authenticated, issues the ping, and only then sleeps for the fixed
interval — the tick's first event is the ping exactly when authenticated, and
its last event is always the sleep, so (when authenticated at start) the
first remote ping occurs before the first interval has elapsed. -/
theorem keep_alive_tick_order (s : MMState) (o : PingOutcome) :
    (keep_alive_tick s o).head?
      = some (if is_authenticated s then KAEvent.ping else KAEvent.sleep)
    ∧ (keep_alive_tick s o).getLast? = some KAEvent.sleep := by
  rcases s with ⟨t⟩
  cases t <;> cases o <;> simp [keep_alive_tick, is_authenticated]

theorem countSleeps_append (a b : List KAEvent) :
    countSleeps (a ++ b) = countSleeps a + countSleeps b := by
  induction a with
  | nil => simp [countSleeps]
  | cons e rest ih =>
      cases e with
      | ping => simp [countSleeps, ih]
      | sleep =>
          simp [countSleeps, ih]
          omega

theorem countSleeps_tick (s : MMState) (o : PingOutcome) :
    countSleeps (keep_alive_tick s o) = 1 := by
  rcases s with ⟨t⟩
  cases t <;> cases o <;> simp [keep_alive_tick, is_authenticated, countSleeps]

/-- Claim C3: the keep-alive loop never terminates and its policy never
changes: for every sequence of ping outcomes (successes and exceptions
alike), the run leaves the authentication state exactly as it was, its trace
is the concatenation of one identical per-tick trace per outcome (each tick
independent of position and of previous outcomes), every outcome is followed
by its interval sleep (as many sleeps as ticks, so the loop always proceeds
to the next tick), and a failed ping produces the same tick as a successful
one. -/
theorem keep_alive_runs_forever (s : MMState) (os : List PingOutcome) (m : String) :
    (keep_alive_run s os).1 = s
    ∧ (keep_alive_run s os).2 = (os.map (fun o => keep_alive_tick s o)).flatten
    ∧ countSleeps (keep_alive_run s os).2 = os.length
    ∧ keep_alive_tick s (PingOutcome.error m) = keep_alive_tick s PingOutcome.ok := by
  have hstate : ∀ (s2 : MMState) (l : List PingOutcome), (keep_alive_run s2 l).1 = s2 := by
    intro s2 l
    induction l with
    | nil => rfl
    | cons o rest ih => simpa [keep_alive_run, keep_alive_tick_state] using ih
  have htrace : (keep_alive_run s os).2 = (os.map (fun o => keep_alive_tick s o)).flatten := by
    induction os with
    | nil => rfl
    | cons o rest ih => simpa [keep_alive_run, keep_alive_tick_state] using ih
  have hcount : ∀ (l : List PingOutcome),
      countSleeps ((l.map (fun o => keep_alive_tick s o)).flatten) = l.length := by
    intro l
    induction l with
    | nil => rfl
    | cons o rest ih =>
        simp [countSleeps_append, countSleeps_tick, ih]
        omega
  refine ⟨hstate s os, htrace, ?_, ?_⟩
  · rw [htrace]
    exact hcount os
  · rcases s with ⟨t⟩
    cases t <;> rfl

/-- Claim C4: for every POST /auth/login request whose remote login call
succeeds (no exception), the handler moves the client to the authenticated
state, performs exactly one session persist, and answers 200 with status
"success". -/
theorem login_success_authenticated_one_persist (s : MMState) (req : LoginRequest)
    (tok : String) :
    (login s req (LoginOutcome.success tok)).resp.statusCode = 200
    ∧ (login s req (LoginOutcome.success tok)).resp.body
        = RespBody.statusMsg "success" "Logged in successfully"
    ∧ (login s req (LoginOutcome.success tok)).persists = 1
    ∧ is_authenticated (login s req (LoginOutcome.success tok)).state = true :=
  ⟨rfl, rfl, rfl, rfl⟩

/-- Claim C5: for every POST /auth/login request (from an unauthenticated
client) whose remote login call signals that a second factor is required, the
handler answers 200 with status "mfa_required", performs no session persist,
and leaves the authentication state unauthenticated. -/
theorem login_mfa_required_unauthenticated (s : MMState) (req : LoginRequest)
    (h : is_authenticated s = false) :
    (login s req LoginOutcome.requireMFA).resp.statusCode = 200
    ∧ (login s req LoginOutcome.requireMFA).resp.body
        = RespBody.statusMsg "mfa_required" "MFA code required"
    ∧ (login s req LoginOutcome.requireMFA).persists = 0
    ∧ is_authenticated (login s req LoginOutcome.requireMFA).state = false :=
  ⟨rfl, rfl, rfl, h⟩

/-- Witness for C5 at a concrete unauthenticated state and request. -/
theorem login_mfa_required_unauthenticated_witness :
    (login (MMState.mk none) (LoginRequest.mk "a@b.c" "pw" none)
      LoginOutcome.requireMFA).resp.statusCode = 200
    ∧ (login (MMState.mk none) (LoginRequest.mk "a@b.c" "pw" none)
        LoginOutcome.requireMFA).resp.body
        = RespBody.statusMsg "mfa_required" "MFA code required"
    ∧ (login (MMState.mk none) (LoginRequest.mk "a@b.c" "pw" none)
        LoginOutcome.requireMFA).persists = 0
    ∧ is_authenticated (login (MMState.mk none) (LoginRequest.mk "a@b.c" "pw" none)
        LoginOutcome.requireMFA).state = false :=
  login_mfa_required_unauthenticated (MMState.mk none)
    (LoginRequest.mk "a@b.c" "pw" none) (by decide)

/-- Claim C6: `load_session` never raises (it is a total function here, as in
the source, where every underlying failure is swallowed and logged), and its
Boolean result is exactly "the path existed and the underlying load call did
not fail": false when the session file path does not exist, true when it
exists and the underlying load succeeds, false when it exists but the
underlying load raises. -/
theorem load_session_result (s : MMState) (env : FSEnv) :
    (load_session s env).2 = (env.pathExists && env.loadOutcome.isOk) := by
  rcases env with ⟨pe, lo⟩
  cases pe <;> cases lo <;> rfl

/-- Claim C7: for every GET /transactions request with parameter `days` made
while authenticated, the handler issues exactly one remote list-transactions
call, with limit 1000, start date today minus `days`, and end date today,
whatever the call's outcome; and when the call succeeds its payload is
returned unchanged with status 200. -/
theorem get_transactions_window_passthrough (tok : String) (days today : Int)
    (o : GetTxOutcome) (p : TxPayload) :
    (get_transactions (MMState.mk (some tok)) days today o).calls
        = [RemoteCall.getTransactions 1000 (today - days) today]
    ∧ (get_transactions (MMState.mk (some tok)) days today (GetTxOutcome.ok p)).resp
        = Response.mk 200 (RespBody.payload p) := by
  refine ⟨?_, rfl⟩
  cases o <;> rfl

/-- Claim C8: for every authenticated PATCH /transactions/\x7bid\x7d request
whose body yields an empty partial-update set (no non-null fields), the
handler issues zero remote calls and answers 200 with status "no_change". -/
theorem update_transaction_empty_body (tok tid : String) (u : TransactionUpdate)
    (o : UpdateOutcome) (h : buildKwargs u = []) :
    (update_transaction (MMState.mk (some tok)) tid u o).calls = []
    ∧ (update_transaction (MMState.mk (some tok)) tid u o).resp.statusCode = 200
    ∧ (update_transaction (MMState.mk (some tok)) tid u o).resp.body
        = RespBody.statusMsg "no_change" "No fields to update" := by
  simp [update_transaction, is_authenticated, h]

/-- Witness for C8 at a concrete token, transaction id and the empty body. -/
theorem update_transaction_empty_body_witness :
    buildKwargs TransactionUpdate.empty = []
    ∧ ((update_transaction (MMState.mk (some "tok")) "42"
          TransactionUpdate.empty UpdateOutcome.ok).calls = []
      ∧ (update_transaction (MMState.mk (some "tok")) "42"
          TransactionUpdate.empty UpdateOutcome.ok).resp.statusCode = 200
      ∧ (update_transaction (MMState.mk (some "tok")) "42"
          TransactionUpdate.empty UpdateOutcome.ok).resp.body
          = RespBody.statusMsg "no_change" "No fields to update") :=
  ⟨rfl, update_transaction_empty_body "tok" "42" TransactionUpdate.empty
    UpdateOutcome.ok rfl⟩

/-- Claim C9: every GET /transactions request made while unauthenticated
(token absent) is answered 401 with zero remote calls issued, for every
`days` value and whatever the remote call would have returned. -/
theorem get_transactions_unauthenticated (days today : Int) (o : GetTxOutcome) :
    (get_transactions (MMState.mk none) days today o).resp.statusCode = 401
    ∧ (get_transactions (MMState.mk none) days today o).calls = [] :=
  ⟨rfl, rfl⟩

/-- Claim C10: the PATCH handler filters update fields by "is not null", not
by truthiness: the all-null body (identical, after parsing, to the empty
body) produces no remote call and a `no_change` answer, while the non-null
falsy values notes = "", needs_review = false and amount = 0 are all kept and
forwarded, in field order, in the single remote update call. -/
theorem update_transaction_null_filter (tok tid : String) (o : UpdateOutcome) :
    (update_transaction (MMState.mk (some tok)) tid TransactionUpdate.empty o).calls = []
    ∧ (update_transaction (MMState.mk (some tok)) tid TransactionUpdate.empty o).resp.body
        = RespBody.statusMsg "no_change" "No fields to update"
    ∧ (update_transaction (MMState.mk (some tok)) tid falsyUpdate UpdateOutcome.ok).calls
        = [RemoteCall.updateTransaction tid
            [("notes", JVal.str ""), ("needs_review", JVal.bool false),
             ("amount", JVal.num 0)]]
    ∧ (update_transaction (MMState.mk (some tok)) tid falsyUpdate
        UpdateOutcome.ok).resp.statusCode = 200 :=
  ⟨rfl, rfl, rfl, rfl⟩

end Monarch
